import Mathlib

/-!
Shallow embedding of the SnowFlakeOS/uefi core abstractions of the crate:
status codes, protocol identity (GUIDs), the owned-resource wrapper, and
the SimpleFileSystem / File protocol pair.

Machine pointers are modelled as `Nat` addresses (0 is the null pointer);
machine words are `Nat` with explicit bounds where they matter.
-/

/-- Modelled from the spec: `Status` lives in `src/status.rs`, which is not
under `src/`.  A status code is an unsigned machine-word integer (64-bit on
the target). -/
structure Status where
  val : Nat
deriving DecidableEq, Repr

/-- Modelled from the spec: error classification of a status code is
"top bit of the machine word is set" (bit 63 of a 64-bit word). -/
def Status.is_error (s : Status) : Bool :=
  Nat.testBit s.val 63

/-- Modelled from the spec: nonzero with the top bit clear denotes a
warning (operation partially succeeded). -/
def Status.is_warning (s : Status) : Bool :=
  !s.is_error && decide (s.val ≠ 0)

/-- Modelled from the spec: the `err_or_else` combinator on `Status`
(`src/status.rs` is not under `src/`): given a closure producing a value,
it returns `Ok(closure())` for success and `Err(code)` for failure. -/
def Status.err_or_else {α : Type} (s : Status) (f : Unit → α) : Except Status α :=
  if s.is_error then Except.error s else Except.ok (f ())

/-- `Guid` from `src/lib.rs`: tuple struct of a 32-bit, a 16-bit, a 16-bit
integer and an 8-byte array, in that order. -/
structure Guid where
  f0 : Nat
  f1 : Nat
  f2 : Nat
  f3 : Fin 8 → Nat
deriving DecidableEq

/-- `FILE_SYSTEM_GUID` constant from `src/lib.rs`. -/
def FILE_SYSTEM_GUID : Guid :=
  ⟨0x964e5b22, 0x6459, 0x11d2, ![0x8e, 0x39, 0x00, 0xa0, 0xc9, 0x69, 0x72, 0x3b]⟩

/-- File mode flag from `src/boot_services/protocols/file.rs`. -/
def FILE_MODE_READ : Nat := 1
/-- File mode flag from `src/boot_services/protocols/file.rs`. -/
def FILE_MODE_WRITE : Nat := 2
/-- File mode flag from `src/boot_services/protocols/file.rs`. -/
def FILE_MODE_CREATE : Nat := 1 <<< 63

/-- Attribute flag from `src/boot_services/protocols/file.rs`. -/
def FILE_READ_ONLY : Nat := 0x01
/-- Attribute flag from `src/boot_services/protocols/file.rs`. -/
def FILE_HIDDEN : Nat := 0x02
/-- Attribute flag from `src/boot_services/protocols/file.rs`. -/
def FILE_SYSTEM : Nat := 0x04
/-- Attribute flag from `src/boot_services/protocols/file.rs`. -/
def FILE_RESERVED : Nat := 0x08
/-- Attribute flag from `src/boot_services/protocols/file.rs`. -/
def FILE_DIRECTORY : Nat := 0x10
/-- Attribute flag from `src/boot_services/protocols/file.rs`. -/
def FILE_ARCHIVE : Nat := 0x20

/-- Modelled from the spec: `Time` lives in `src/runtime_services/`, which is
not under `src/`; the spec describes it only as a fixed-size timestamp
record, so its firmware-defined fields are kept abstract as one payload. -/
structure Time where
  raw : Nat
deriving DecidableEq

/-- `FileInfo` from `src/boot_services/protocols/file.rs`: the metadata
snapshot structure, fields in source order.  The `FileName` buffer is the
fixed-capacity array `[u16; 256]`, modelled as a function on `Fin 256`. -/
structure FileInfo where
  Size : Nat
  FileSize : Nat
  PhysicalSize : Nat
  CreateTime : Time
  LastAccessTime : Time
  ModificationTime : Time
  Attribute : Nat
  FileName : Fin 256 → Nat

/-- Field-type descriptors for C-layout structures of this crate. -/
inductive FieldTy where
  | u64 : FieldTy
  | u32 : FieldTy
  | u16 : FieldTy
  | time : FieldTy
  | u8_arr : Nat → FieldTy
  | u16_arr : Nat → FieldTy
deriving DecidableEq, Repr

/-- The declaration-order layout of `FileInfo` as written in
`src/boot_services/protocols/file.rs` (a `#[repr(C)]` struct, so source
order is memory order). -/
def FileInfo.layout : List (String × FieldTy) :=
  [("Size", FieldTy.u64),
   ("FileSize", FieldTy.u64),
   ("PhysicalSize", FieldTy.u64),
   ("CreateTime", FieldTy.time),
   ("LastAccessTime", FieldTy.time),
   ("ModificationTime", FieldTy.time),
   ("Attribute", FieldTy.u64),
   ("FileName", FieldTy.u16_arr 256)]

/-- The declaration-order layout of `Guid` as written in `src/lib.rs`
(`pub struct Guid(pub u32, pub u16, pub u16, pub [u8; 8])`). -/
def Guid.layout : List FieldTy :=
  [FieldTy.u32, FieldTy.u16, FieldTy.u16, FieldTy.u8_arr 8]

/-- A slot of a protocol function-pointer table: the leading machine-word
revision field or a named function-pointer entry. -/
inductive Slot where
  | revision : Slot
  | fnptr : String → Slot
deriving DecidableEq, Repr

/-- The declaration-order slots of the `File` protocol table as written in
`src/boot_services/protocols/file.rs` (a `#[repr(C)]` struct). -/
def File.layout : List Slot :=
  [Slot.revision,
   Slot.fnptr "open",
   Slot.fnptr "close",
   Slot.fnptr "delete",
   Slot.fnptr "read",
   Slot.fnptr "write",
   Slot.fnptr "get_position",
   Slot.fnptr "set_position",
   Slot.fnptr "get_info",
   Slot.fnptr "set_info",
   Slot.fnptr "flush"]

/-- The declaration-order slots of the `SimpleFileSystem` protocol table as
written in `src/boot_services/protocols/simple_file_system.rs`. -/
def SimpleFileSystem.layout : List Slot :=
  [Slot.revision, Slot.fnptr "open_volume"]

/-- Modelled from the spec: `Owned<T>` lives in `src/boot_services/`, which
is not under `src/`.  It wraps exactly one raw pointer to a firmware
allocated resource; pointers are `Nat` addresses, `0` is null. -/
structure Owned (T : Type) where
  ptr : Nat
deriving DecidableEq, Repr

/-- Modelled from the spec: `Owned::from_ptr` takes ownership of a pointer
obtained from a firmware open/create call. -/
def Owned.from_ptr (T : Type) (p : Nat) : Owned T :=
  ⟨p⟩

/-- Marker type standing for the firmware-side `File` protocol instance an
`Owned<File>` points at (its table slots are described by `File.layout`). -/
inductive FileRes where
  | mk : FileRes
deriving DecidableEq, Repr

/-- `SimpleFileSystem` from `src/boot_services/protocols/simple_file_system.rs`:
a revision word and the `open_volume` function-pointer slot.  The slot is
the function of the firmware; it receives the current value of the out-pointer of the caller and returns the status together with the value it leaves in
that out-pointer.  (the Rust `&SimpleFileSystem` first argument is the
instance itself, implicit here because the slot is a field of it.) -/
structure SimpleFileSystem where
  revision : Nat
  open_volume_fp : Nat → Status × Nat

/-- `SimpleFileSystem::guid` from the `Protocol` impl in
`src/boot_services/protocols/simple_file_system.rs`: a static function (no
instance argument) returning `FILE_SYSTEM_GUID`. -/
def SimpleFileSystem.guid : Guid :=
  FILE_SYSTEM_GUID

/-- `SimpleFileSystem::from_ptr` from the `Protocol` impl in
`src/boot_services/protocols/simple_file_system.rs`: `v as *const _`, a
plain pointer cast leaving the address unchanged. -/
def SimpleFileSystem.from_ptr (v : Nat) : Nat :=
  v

/-- `SimpleFileSystem::open_volume` from
`src/boot_services/protocols/simple_file_system.rs`:
`let mut ptr = null_mut(); (self.open_volume)(self, &mut ptr)
  .err_or_else(|| unsafe { Owned::from_ptr(ptr) })`. -/
def SimpleFileSystem.open_volume (s : SimpleFileSystem) :
    Except Status (Owned FileRes) :=
  let ptr : Nat := 0
  let r := s.open_volume_fp ptr
  r.1.err_or_else (fun _ => Owned.from_ptr FileRes r.2)

/-!
Ownership-trace model for the `Owned<T>` release discipline.  The Rust
`Drop` impl and move semantics live in `src/boot_services/`, not under
`src/`, so they are modelled from the spec.  The variable slots of a scope are
a finite map `Fin n → Option Nat`: `some p` means the slot currently owns
the resource at address `p`, `none` means the slot is empty or moved-from.
-/

/-- Modelled from the spec: a scope holding one freshly constructed owner
in slot `k` and `n - 1` empty slots. -/
def singleOwner {n : Nat} (k : Fin n) (p : Nat) : Fin n → Option Nat :=
  Function.update (fun _ => none) k (some p)

/-- Modelled from the spec: moving the wrapper from slot `i` to slot `j`
transfers ownership; the old location no longer owns (it becomes `none`).
Moving out of an empty or moved-from slot is rejected by the Rust
compiler, modelled as a no-op. -/
def moveOwned {n : Nat} (slots : Fin n → Option Nat) (i j : Fin n) :
    Fin n → Option Nat :=
  match slots i with
  | some p => Function.update (Function.update slots i none) j (some p)
  | none => slots

/-- Run a sequence of moves between slots. -/
def applyMoves {n : Nat} (slots : Fin n → Option Nat) :
    List (Fin n × Fin n) → (Fin n → Option Nat)
  | [] => slots
  | m :: ms => applyMoves (moveOwned slots m.1 m.2) ms

/-- Modelled from the spec: on scope exit (normal, early-return or error
path alike) the drop glue runs on every slot; a slot that still owns a
resource invokes the close operation of that resource, an empty or moved-from
slot invokes nothing.  The result lists the addresses closed, in slot
order. -/
def scopeExitCloses {n : Nat} (slots : Fin n → Option Nat) : List Nat :=
  (List.finRange n).filterMap slots

lemma filterMap_ite_eq_nil {α β : Type} [DecidableEq α] (l : List α) (k : α)
    (p : β) (hk : k ∉ l) :
    l.filterMap (fun a => if a = k then some p else none) = [] := by
  induction l with
  | nil => rfl
  | cons x xs ih =>
    have hxk : x ≠ k := by
      intro e
      exact hk (e ▸ List.mem_cons_self x xs)
    simp only [List.filterMap_cons, if_neg hxk]
    exact ih (fun h => hk (List.mem_cons_of_mem _ h))

lemma filterMap_ite_eq_single {α β : Type} [DecidableEq α] (l : List α) (k : α)
    (p : β) (hnd : l.Nodup) (hm : k ∈ l) :
    l.filterMap (fun a => if a = k then some p else none) = [p] := by
  induction l with
  | nil => cases hm
  | cons x xs ih =>
    rcases List.mem_cons.mp hm with h | h
    · subst h
      have h2 := filterMap_ite_eq_nil xs k p (List.nodup_cons.mp hnd).1
      simp [List.filterMap_cons, h2]
    · have hxk : x ≠ k := by
        rintro rfl
        exact (List.nodup_cons.mp hnd).1 h
      simp only [List.filterMap_cons, if_neg hxk]
      exact ih (List.nodup_cons.mp hnd).2 h

lemma singleOwner_apply {n : Nat} (k : Fin n) (p : Nat) (a : Fin n) :
    singleOwner k p a = if a = k then some p else none := by
  unfold singleOwner
  rw [Function.update_apply]

lemma scopeExitCloses_singleOwner {n : Nat} (k : Fin n) (p : Nat) :
    scopeExitCloses (singleOwner k p) = [p] := by
  unfold scopeExitCloses
  rw [show singleOwner k p = fun a => if a = k then some p else none from
    funext (singleOwner_apply k p)]
  exact filterMap_ite_eq_single _ k p (List.nodup_finRange n) (List.mem_finRange k)

lemma moveOwned_singleOwner {n : Nat} (k : Fin n) (p : Nat) (i j : Fin n) :
    ∃ k', moveOwned (singleOwner k p) i j = singleOwner k' p := by
  unfold moveOwned
  split
  · rename_i q hq
    rw [singleOwner_apply] at hq
    by_cases hik : i = k
    · rw [if_pos hik] at hq
      injection hq with hpq
      subst hpq
      subst hik
      refine ⟨j, funext fun a => ?_⟩
      simp only [Function.update_apply, singleOwner_apply]
      by_cases haj : a = j
      · simp [haj]
      · by_cases hai : a = i <;> simp [haj, hai]
    · rw [if_neg hik] at hq
      cases hq
  · exact ⟨k, rfl⟩

lemma applyMoves_singleOwner {n : Nat} (p : Nat)
    (moves : List (Fin n × Fin n)) :
    ∀ k : Fin n, ∃ k', applyMoves (singleOwner k p) moves = singleOwner k' p := by
  induction moves with
  | nil => exact fun k => ⟨k, rfl⟩
  | cons m ms ih =>
    intro k
    obtain ⟨k1, h1⟩ := moveOwned_singleOwner k p m.1 m.2
    obtain ⟨k2, h2⟩ := ih k1
    refine ⟨k2, ?_⟩
    simp only [applyMoves]
    rw [h1]
    exact h2

/-- C1: `SimpleFileSystem::open_volume` returns `Ok(Owned::from_ptr(p))`
wrapping the root-file pointer `p` the open-volume call of the firmware wrote
into the out-parameter when the status of that call is a success, and returns
`Err` carrying exactly the firmware status code otherwise; in the error
case the result carries no `Owned` at all (it is never an `Ok`), so no
owner exists. -/
theorem open_volume_spec (fs : SimpleFileSystem) :
    ((fs.open_volume_fp 0).1.is_error = false →
      fs.open_volume = Except.ok (Owned.from_ptr FileRes (fs.open_volume_fp 0).2)) ∧
    ((fs.open_volume_fp 0).1.is_error = true →
      fs.open_volume = Except.error (fs.open_volume_fp 0).1 ∧
      ∀ o : Owned FileRes, fs.open_volume ≠ Except.ok o) := by
  unfold SimpleFileSystem.open_volume Status.err_or_else
  constructor
  · intro h
    simp [h]
  · intro h
    simp [h]

/-- C1 witness: a concrete volume whose firmware call succeeds with root
pointer 7, and one whose call fails with an error status. -/
theorem open_volume_spec_witness :
    (SimpleFileSystem.mk 1 (fun _ => (Status.mk 0, 7))).open_volume
      = Except.ok (Owned.from_ptr FileRes 7) ∧
    (SimpleFileSystem.mk 1 (fun _ => (Status.mk (2 ^ 63 + 14), 0))).open_volume
      = Except.error (Status.mk (2 ^ 63 + 14)) :=
  ⟨(open_volume_spec (SimpleFileSystem.mk 1 (fun _ => (Status.mk 0, 7)))).1
      (by decide),
   ((open_volume_spec (SimpleFileSystem.mk 1
        (fun _ => (Status.mk (2 ^ 63 + 14), 0)))).2 (by decide)).1⟩

/-- C2: `err_or_else` returns `Ok(f())` when the status is a success and
`Err(status)` when it is an error; on the error path the result does not
depend on the closure in any way (the closure is not executed: every
closure yields the same `Err`). -/
theorem err_or_else_spec {α : Type} (s : Status) (f : Unit → α) :
    (s.is_error = false → s.err_or_else f = Except.ok (f ())) ∧
    (s.is_error = true →
      s.err_or_else f = Except.error s ∧
      ∀ g : Unit → α, s.err_or_else g = s.err_or_else f) := by
  unfold Status.err_or_else
  constructor
  · intro h
    simp [h]
  · intro h
    simp [h]

/-- C2 witness: success status 0 runs the closure; error status `2^63`
short-circuits to `Err` for every closure. -/
theorem err_or_else_spec_witness :
    (Status.mk 0).err_or_else (fun _ => (42 : Nat)) = Except.ok 42 ∧
    (Status.mk (2 ^ 63)).err_or_else (fun _ => (42 : Nat))
      = Except.error (Status.mk (2 ^ 63)) :=
  ⟨(err_or_else_spec (Status.mk 0) (fun _ => (42 : Nat))).1 (by decide),
   ((err_or_else_spec (Status.mk (2 ^ 63)) (fun _ => (42 : Nat))).2
      (by decide)).1⟩

/-- C3: for every machine-word status code, `is_error` holds iff the top
bit (bit 63) is set, equivalently iff the value is at least `2^63`;
classification depends on nothing but that bit; 0 is a success (not a
warning, not an error); a nonzero code with the top bit clear is a
warning, which propagates as success through `err_or_else` yet stays
distinguishable from plain success via `is_warning`. -/
theorem status_classification (s : Status) (h : s.val < 2 ^ 64) :
    (s.is_error = true ↔ 2 ^ 63 ≤ s.val) ∧
    (∀ t : Status, Nat.testBit t.val 63 = Nat.testBit s.val 63 →
      t.is_error = s.is_error) ∧
    (s.val = 0 → s.is_error = false ∧ s.is_warning = false) ∧
    (s.val ≠ 0 → s.is_error = false →
      s.is_warning = true ∧
      ∀ (α : Type) (f : Unit → α), s.err_or_else f = Except.ok (f ())) := by
  have e63 : (2 : Nat) ^ 63 = 9223372036854775808 := by norm_num
  have e64 : (2 : Nat) ^ 64 = 18446744073709551616 := by norm_num
  refine ⟨?_, ?_, ?_, ?_⟩
  · rw [Status.is_error, Nat.testBit_to_div_mod, decide_eq_true_iff]
    rw [e63] at *
    rw [e64] at h
    omega
  · intro t ht
    rw [Status.is_error, Status.is_error, ht]
  · intro h0
    constructor
    · rw [Status.is_error, h0]
      rfl
    · rw [Status.is_warning]
      simp [h0]
  · intro hnz herr
    refine ⟨?_, ?_⟩
    · rw [Status.is_warning, herr]
      simp [hnz]
    · intro α f
      rw [Status.err_or_else, herr]
      rfl

/-- C3 witness: status `2^63 + 3` (top bit set, low bits arbitrary) is an
error; status 0 is plain success; status 5 (nonzero, top bit clear) is a
warning and propagates as success. -/
theorem status_classification_witness :
    (Status.mk (2 ^ 63 + 3)).is_error = true ∧
    ((Status.mk 0).is_error = false ∧ (Status.mk 0).is_warning = false) ∧
    ((Status.mk 5).is_warning = true ∧
      (Status.mk 5).err_or_else (fun _ => (1 : Nat)) = Except.ok 1) :=
  ⟨((status_classification (Status.mk (2 ^ 63 + 3)) (by norm_num)).1).mpr
      (by norm_num),
   (status_classification (Status.mk 0) (by norm_num)).2.2.1 rfl,
   ⟨((status_classification (Status.mk 5) (by norm_num)).2.2.2 (by decide)
        (by decide)).1,
    ((status_classification (Status.mk 5) (by norm_num)).2.2.2 (by decide)
        (by decide)).2 Nat (fun _ => 1)⟩⟩

/-- C4: `SimpleFileSystem::guid()` — a static function taking no instance
or pointer argument, hence trivially independent of both — returns exactly
the simple-file-system GUID constant, component for component and byte for
byte. -/
theorem simple_file_system_guid_spec :
    SimpleFileSystem.guid =
      ⟨0x964e5b22, 0x6459, 0x11d2,
        ![0x8e, 0x39, 0x00, 0xa0, 0xc9, 0x69, 0x72, 0x3b]⟩ ∧
    SimpleFileSystem.guid = FILE_SYSTEM_GUID :=
  ⟨rfl, rfl⟩

/-- C5: an `Owned` constructed from a non-null pointer `p` and placed in
one slot of a scope is closed exactly once at scope exit — the close list
is exactly `[p]`, never empty and never longer — for every sequence of
moves between slots: moving transfers the responsibility, so moved-from
locations do not also release. -/
theorem owned_close_exactly_once (T : Type) {n : Nat} (k : Fin n) (p : Nat)
    (_hp : p ≠ 0) (moves : List (Fin n × Fin n)) :
    scopeExitCloses (applyMoves (singleOwner k (Owned.from_ptr T p).ptr) moves)
      = [p] := by
  obtain ⟨k', hk⟩ := applyMoves_singleOwner p moves k
  show scopeExitCloses (applyMoves (singleOwner k p) moves) = [p]
  rw [hk]
  exact scopeExitCloses_singleOwner k' p

/-- C5 witness: a two-slot scope, owner built from pointer 5 in slot 0,
moved once into slot 1: exactly one close, on 5. -/
theorem owned_close_exactly_once_witness :
    (5 : Nat) ≠ 0 ∧
    scopeExitCloses
      (applyMoves (singleOwner (0 : Fin 2) (Owned.from_ptr FileRes 5).ptr)
        [((0 : Fin 2), (1 : Fin 2))]) = [5] :=
  ⟨by decide,
   owned_close_exactly_once FileRes (0 : Fin 2) 5 (by decide)
     [((0 : Fin 2), (1 : Fin 2))]⟩

/-- C6: the file-open mode flags are read = 1 (bit 0), write = 2 (bit 1),
create = `2^63` (the top bit of a 64-bit word, `1 <<< 63`); the attribute
flags are read-only = 0x01, hidden = 0x02, system = 0x04, reserved = 0x08,
directory = 0x10, archive = 0x20. -/
theorem file_flag_values :
    FILE_MODE_READ = 1 ∧ FILE_MODE_WRITE = 2 ∧
    FILE_MODE_CREATE = 2 ^ 63 ∧ FILE_MODE_CREATE = 1 <<< 63 ∧
    FILE_READ_ONLY = 0x01 ∧ FILE_HIDDEN = 0x02 ∧ FILE_SYSTEM = 0x04 ∧
    FILE_RESERVED = 0x08 ∧ FILE_DIRECTORY = 0x10 ∧ FILE_ARCHIVE = 0x20 := by
  refine ⟨rfl, rfl, ?_, rfl, rfl, rfl, rfl, rfl, rfl, rfl⟩
  rw [FILE_MODE_CREATE, Nat.shiftLeft_eq]
  norm_num

/-- C7: the fields of the `FileInfo` structure, in declaration (= memory)
order, are: the total-structure-size word, the file-size word, the
physical-size word, three timestamp records (create, last-access,
modification), the attribute bitmask word, and the fixed-capacity 256-unit
16-bit-character name buffer — nothing reordered or omitted. -/
theorem file_info_layout_spec :
    FileInfo.layout =
      [("Size", FieldTy.u64),
       ("FileSize", FieldTy.u64),
       ("PhysicalSize", FieldTy.u64),
       ("CreateTime", FieldTy.time),
       ("LastAccessTime", FieldTy.time),
       ("ModificationTime", FieldTy.time),
       ("Attribute", FieldTy.u64),
       ("FileName", FieldTy.u16_arr 256)] :=
  rfl

/-- C8: `Guid` is structurally a 32-bit field, a 16-bit field, a 16-bit
field and an 8-byte array, in exactly that order, and two `Guid` values
are equal iff all four fields agree component-wise (the byte array
byte-for-byte). -/
theorem guid_structure_and_eq :
    Guid.layout = [FieldTy.u32, FieldTy.u16, FieldTy.u16, FieldTy.u8_arr 8] ∧
    ∀ g1 g2 : Guid, g1 = g2 ↔
      (g1.f0 = g2.f0 ∧ g1.f1 = g2.f1 ∧ g1.f2 = g2.f2 ∧
        ∀ i, g1.f3 i = g2.f3 i) := by
  refine ⟨rfl, fun g1 g2 => ?_⟩
  constructor
  · rintro rfl
    exact ⟨rfl, rfl, rfl, fun i => rfl⟩
  · rintro ⟨h0, h1, h2, h3⟩
    cases g1
    cases g2
    simp only at h0 h1 h2 h3
    subst h0
    subst h1
    subst h2
    rw [funext h3]

/-- C9: the protocol tables are fixed-order sequences beginning with the
machine-word revision slot: `SimpleFileSystem` is {revision, open_volume}
and `File` is {revision, open, close, delete, read, write, get_position,
set_position, get_info, set_info, flush}, with no slot reordered, added,
or omitted. -/
theorem protocol_table_layouts :
    SimpleFileSystem.layout = [Slot.revision, Slot.fnptr "open_volume"] ∧
    File.layout =
      [Slot.revision,
       Slot.fnptr "open",
       Slot.fnptr "close",
       Slot.fnptr "delete",
       Slot.fnptr "read",
       Slot.fnptr "write",
       Slot.fnptr "get_position",
       Slot.fnptr "set_position",
       Slot.fnptr "get_info",
       Slot.fnptr "set_info",
       Slot.fnptr "flush"] :=
  ⟨rfl, rfl⟩

/-- C10: `SimpleFileSystem::from_ptr` is the identity on addresses — it
returns its argument unchanged for every pointer value, the null pointer
(address 0) included; being a total identity it performs no GUID match,
null check, or other validation. -/
theorem from_ptr_identity :
    (∀ v : Nat, SimpleFileSystem.from_ptr v = v) ∧
    SimpleFileSystem.from_ptr 0 = 0 :=
  ⟨fun _ => rfl, rfl⟩

